import Mathlib

/-!
Shallow embedding of the `zuno-bc-wallet` wallet facade.

The embedding translates, from the Python source:
  * `src/networks.py` — the static network registry (`NETWORKS`,
    `get_network`, `is_supported_network`, `list_networks`);
  * `src/wallet_service.py` — the `WalletService` facade
    (`create_wallet`, `get_wallet`, `get_balance`, `send_transaction`,
    `get_transaction_status`).

The external Circle provider is modelled as a record of functions
returning `Except ProviderError _`; each facade operation is a pure
function of the provider, an idempotency-key generator state, and a
local clock value, returning its result together with the list of
provider calls it issued (the call log makes "no provider call is
attempted" statable). Python exceptions are `Except.error`; `None`
is `Option.none`.
-/

/-- Configuration for a blockchain network (`NetworkConfig` dataclass,
`src/networks.py`). -/
structure NetworkConfig where
  chain_id : String
  name : String
  is_testnet : Bool
  native_currency : String
  explorer_url : String
deriving DecidableEq, Repr

/-- The static table of network configurations (`NETWORKS` dict in
`src/networks.py`), as an association list in the dict's insertion
order. -/
def NETWORKS : List (String × NetworkConfig) := [
  ("ARC-TESTNET",
    { chain_id := "ARC-TESTNET", name := "Arc Testnet", is_testnet := true,
      native_currency := "ARC", explorer_url := "https://testnet.arcscan.com" }),
  ("ARC-MAINNET",
    { chain_id := "ARC-MAINNET", name := "Arc Mainnet", is_testnet := false,
      native_currency := "ARC", explorer_url := "https://arcscan.com" }),
  ("MATIC-AMOY",
    { chain_id := "MATIC-AMOY", name := "Polygon Amoy Testnet", is_testnet := true,
      native_currency := "MATIC", explorer_url := "https://amoy.polygonscan.com" }),
  ("MATIC-MAINNET",
    { chain_id := "MATIC-MAINNET", name := "Polygon Mainnet", is_testnet := false,
      native_currency := "MATIC", explorer_url := "https://polygonscan.com" }),
  ("ARB-SEPOLIA",
    { chain_id := "ARB-SEPOLIA", name := "Arbitrum Sepolia Testnet", is_testnet := true,
      native_currency := "ETH", explorer_url := "https://sepolia.arbiscan.io" }),
  ("ARB-MAINNET",
    { chain_id := "ARB-MAINNET", name := "Arbitrum One Mainnet", is_testnet := false,
      native_currency := "ETH", explorer_url := "https://arbiscan.io" }),
  ("ETH-SEPOLIA",
    { chain_id := "ETH-SEPOLIA", name := "Ethereum Sepolia Testnet", is_testnet := true,
      native_currency := "ETH", explorer_url := "https://sepolia.etherscan.io" }),
  ("ETH-MAINNET",
    { chain_id := "ETH-MAINNET", name := "Ethereum Mainnet", is_testnet := false,
      native_currency := "ETH", explorer_url := "https://etherscan.io" }),
  ("AVAX-FUJI",
    { chain_id := "AVAX-FUJI", name := "Avalanche Fuji Testnet", is_testnet := true,
      native_currency := "AVAX", explorer_url := "https://testnet.snowtrace.io" }),
  ("AVAX-MAINNET",
    { chain_id := "AVAX-MAINNET", name := "Avalanche C-Chain Mainnet", is_testnet := false,
      native_currency := "AVAX", explorer_url := "https://snowtrace.io" }),
  ("SOL-DEVNET",
    { chain_id := "SOL-DEVNET", name := "Solana Devnet", is_testnet := true,
      native_currency := "SOL",
      explorer_url := "https://explorer.solana.com/?cluster=devnet" }),
  ("SOL-MAINNET",
    { chain_id := "SOL-MAINNET", name := "Solana Mainnet", is_testnet := false,
      native_currency := "SOL", explorer_url := "https://explorer.solana.com" })
]

/-- Python dict key lookup (`NETWORKS[chain_id]` / `chain_id in NETWORKS`)
over the association-list model: first (only, keys being unique) entry
whose key equals the query. -/
def dictLookup (chain_id : String) : List (String × NetworkConfig) → Option NetworkConfig
  | [] => none
  | (k, v) :: rest => if k = chain_id then some v else dictLookup chain_id rest

/-- `get_network` (`src/networks.py` lines 116-120): raises `ValueError`
("Unsupported network: …") when the key is absent, otherwise returns the
table entry. -/
def get_network (chain_id : String) : Except String NetworkConfig :=
  match dictLookup chain_id NETWORKS with
  | none => Except.error ("Unsupported network: " ++ chain_id)
  | some n => Except.ok n

/-- `is_supported_network` (`src/networks.py` lines 123-125):
`chain_id in NETWORKS`. -/
def is_supported_network (chain_id : String) : Bool :=
  (dictLookup chain_id NETWORKS).isSome

/-- `list_networks` (`src/networks.py` lines 128-134): filter of the
table by the testnet flag, in table order. -/
def list_networks (testnet_only : Bool := false) (mainnet_only : Bool := false) :
    List (String × NetworkConfig) :=
  if testnet_only then NETWORKS.filter (fun pr => pr.2.is_testnet)
  else if mainnet_only then NETWORKS.filter (fun pr => !pr.2.is_testnet)
  else NETWORKS

/-! ## Provider model (the Circle SDK client, `self.client` in
`src/wallet_service.py`) -/

/-- Failure of a provider call (an exception raised inside the Circle
SDK as seen by the facade's `try` blocks): "no such wallet/transaction"
lookups, transport faults, auth failures, malformed requests. -/
inductive ProviderError where
  | notFound
  | transportFault
  | authFailure
  | malformedRequest
deriving DecidableEq, Repr

/-- A wallet as returned by the provider (`response.data.wallet` /
`response.data.wallets[i]`). -/
structure ProviderWallet where
  id : String
  wallet_set_id : String
  address : String
  blockchain : String
  account_type : String
  state : String
  create_date : Nat
deriving DecidableEq, Repr

/-- A wallet set as returned by the provider
(`wallet_set_response.data.wallet_set`). -/
structure ProviderWalletSet where
  id : String
  name : String
deriving DecidableEq, Repr

/-- Token metadata inside a provider balance entry
(`token_balance.token`). -/
structure ProviderToken where
  symbol : String
  decimals : Nat
  address : String
deriving DecidableEq, Repr

/-- One entry of `balance_response.data.token_balances`. -/
structure ProviderTokenBalance where
  token : ProviderToken
  amount : String
deriving DecidableEq, Repr

/-- A transaction as returned by the provider (`tx_response.data` on
create, `response.data.transaction` on lookup); `tx_hash` is `none`
when the attribute is absent (the `getattr(transaction, 'tx_hash',
None)` probe). -/
structure ProviderTransaction where
  id : String
  state : String
  tx_hash : Option String
  create_date : Nat
  update_date : Nat
deriving DecidableEq, Repr

/-- The `CreateWalletRequest` dict the facade builds for the provider
(`src/wallet_service.py` lines 72-78). -/
structure ProviderCreateWalletRequest where
  idempotency_key : String
  wallet_set_id : String
  account_type : String
  blockchains : List String
  count : Nat
deriving DecidableEq, Repr

/-- The `CreateDeveloperTransactionTransferRequest` dict the facade
builds for the provider (`src/wallet_service.py` lines 197-205). -/
structure ProviderTransferRequest where
  idempotency_key : String
  wallet_id : String
  blockchain : String
  token_id : String
  destination_address : String
  amounts : List String
  fee_level : String
deriving DecidableEq, Repr

/-- One provider API call issued by the facade, recorded for the call
log. -/
inductive ProviderCall where
  | createWalletSet (name : String)
  | createWallet (req : ProviderCreateWalletRequest)
  | getWallet (wallet_id : String)
  | getWalletTokenBalance (wallet_id : String)
  | createTransfer (req : ProviderTransferRequest)
  | getTransaction (transaction_id : String)
deriving DecidableEq, Repr

/-- The provider client as seen from the facade: each SDK method either
returns a value or raises a `ProviderError`. `get_wallet_token_balance`
returns `none` when the response lacks the `data.token_balances`
attribute (the `hasattr` probes at `src/wallet_service.py` line 149). -/
structure Provider where
  create_wallet_set : String → Except ProviderError ProviderWalletSet
  create_wallet : ProviderCreateWalletRequest → Except ProviderError (List ProviderWallet)
  get_wallet : String → Except ProviderError ProviderWallet
  get_wallet_token_balance : String → Except ProviderError (Option (List ProviderTokenBalance))
  create_transfer : ProviderTransferRequest → Except ProviderError ProviderTransaction
  get_transaction : String → Except ProviderError ProviderTransaction

/-- State of the `uuid.uuid4()` source: an infinite stream of key
strings and the index of the next draw. Each `str(uuid.uuid4())` in the
facade takes the key at `idx` and advances the index. -/
structure KeyGen where
  stream : Nat → String
  idx : Nat

/-- Draw one fresh idempotency key (`str(uuid.uuid4())`). -/
def KeyGen.fresh (g : KeyGen) : String × KeyGen :=
  (g.stream g.idx, { g with idx := g.idx + 1 })

/-! ## Facade request/response models (`src/models.py`) -/

/-- `CreateWalletRequest` pydantic model (`src/models.py`). -/
structure CreateWalletRequestModel where
  user_id : String
  blockchain : String
  account_type : String
  wallet_set_name : Option String
deriving DecidableEq, Repr

/-- `WalletResponse` pydantic model (`src/models.py`); `created_at`
timestamps are modelled as `Nat` clock values. -/
structure WalletResponse where
  wallet_id : String
  wallet_set_id : String
  address : String
  blockchain : String
  account_type : String
  created_at : Nat
deriving DecidableEq, Repr

/-- One entry of `BalanceResponse.balances` (the dict built at
`src/wallet_service.py` lines 151-156). -/
structure BalanceEntry where
  token : String
  amount : String
  decimals : Nat
  contract_address : String
deriving DecidableEq, Repr

/-- `BalanceResponse` pydantic model (`src/models.py`). -/
structure BalanceResponse where
  address : String
  blockchain : String
  balances : List BalanceEntry
deriving DecidableEq, Repr

/-- `SendTransactionRequest` pydantic model (`src/models.py`). -/
structure SendTransactionRequest where
  wallet_id : String
  to_address : String
  token_symbol : String
  amount : String
  blockchain : String
deriving DecidableEq, Repr

/-- `TransactionResponse` pydantic model (`src/models.py`). -/
structure TransactionResponse where
  transaction_id : String
  wallet_id : String
  status : String
  blockchain_tx_hash : Option String
  from_address : String
  to_address : String
  amount : String
  token_symbol : String
  created_at : Nat
deriving DecidableEq, Repr

/-- The dict returned by `WalletService.get_wallet`
(`src/wallet_service.py` lines 111-118). -/
structure WalletDict where
  wallet_id : String
  wallet_set_id : String
  address : String
  blockchain : String
  account_type : String
  state : String
deriving DecidableEq, Repr

/-- The dict returned by `WalletService.get_transaction_status`
(`src/wallet_service.py` lines 243-249). -/
structure TransactionStatusDict where
  transaction_id : String
  state : String
  blockchain_tx_hash : Option String
  created_at : Nat
  updated_at : Nat
deriving DecidableEq, Repr

/-- An exception escaping a facade operation: the `ValueError` raised
for an unsupported blockchain, a re-raised provider error, or the
`IndexError` from `wallets[0]` on an empty provider wallet list. -/
inductive ServiceError where
  | valueError (msg : String)
  | provider (e : ProviderError)
  | indexError
deriving DecidableEq, Repr

/-! ## The facade (`WalletService`, `src/wallet_service.py`) -/

namespace WalletService

/-- `WalletService.create_wallet` (`src/wallet_service.py` lines
36-96). Validates the blockchain against the registry before touching
the provider, creates a wallet set (named by the request or derived
from the user id), creates exactly one wallet in it with a fresh
idempotency key, and reshapes the first returned wallet, stamping a
local clock value `now` as `created_at`. Any provider failure is
logged and re-raised. -/
def create_wallet (p : Provider) (g : KeyGen) (now : Nat)
    (request : CreateWalletRequestModel) :
    Except ServiceError WalletResponse × List ProviderCall × KeyGen :=
  if ¬ is_supported_network request.blockchain then
    (Except.error (ServiceError.valueError
      ("Unsupported blockchain: " ++ request.blockchain)), [], g)
  else
    let wallet_set_name := request.wallet_set_name.getD
      ("user-" ++ request.user_id ++ "-wallets")
    match p.create_wallet_set wallet_set_name with
    | Except.error e =>
      (Except.error (ServiceError.provider e),
       [ProviderCall.createWalletSet wallet_set_name], g)
    | Except.ok wallet_set =>
      let key := g.fresh.1
      let g1 := g.fresh.2
      let cwr : ProviderCreateWalletRequest :=
        { idempotency_key := key
          wallet_set_id := wallet_set.id
          account_type := request.account_type
          blockchains := [request.blockchain]
          count := 1 }
      match p.create_wallet cwr with
      | Except.error e =>
        (Except.error (ServiceError.provider e),
         [ProviderCall.createWalletSet wallet_set_name,
          ProviderCall.createWallet cwr], g1)
      | Except.ok wallets =>
        match wallets with
        | [] =>
          (Except.error ServiceError.indexError,
           [ProviderCall.createWalletSet wallet_set_name,
            ProviderCall.createWallet cwr], g1)
        | wallet :: _ =>
          (Except.ok
            { wallet_id := wallet.id
              wallet_set_id := wallet_set.id
              address := wallet.address
              blockchain := wallet.blockchain
              account_type := wallet.account_type
              created_at := now },
           [ProviderCall.createWalletSet wallet_set_name,
            ProviderCall.createWallet cwr], g1)

/-- `WalletService.get_wallet` (`src/wallet_service.py` lines 98-121).
The whole body is inside `try ... except Exception: return None`, so
every provider failure becomes `none`; on success the wallet is
reshaped into a dict. -/
def get_wallet (p : Provider) (wallet_id : String) :
    Except ServiceError (Option WalletDict) × List ProviderCall :=
  match p.get_wallet wallet_id with
  | Except.error _ => (Except.ok none, [ProviderCall.getWallet wallet_id])
  | Except.ok wallet =>
    (Except.ok (some
      { wallet_id := wallet.id
        wallet_set_id := wallet.wallet_set_id
        address := wallet.address
        blockchain := wallet.blockchain
        account_type := wallet.account_type
        state := wallet.state }),
     [ProviderCall.getWallet wallet_id])

/-- `WalletService.get_balance` (`src/wallet_service.py` lines
123-166). Fetches the wallet, then its token balances; a response
without a `data.token_balances` attribute yields an empty list. Any
provider failure is logged and re-raised. -/
def get_balance (p : Provider) (wallet_id : String) :
    Except ServiceError BalanceResponse × List ProviderCall :=
  match p.get_wallet wallet_id with
  | Except.error e =>
    (Except.error (ServiceError.provider e), [ProviderCall.getWallet wallet_id])
  | Except.ok wallet =>
    match p.get_wallet_token_balance wallet_id with
    | Except.error e =>
      (Except.error (ServiceError.provider e),
       [ProviderCall.getWallet wallet_id,
        ProviderCall.getWalletTokenBalance wallet_id])
    | Except.ok token_balances =>
      let balances : List BalanceEntry :=
        match token_balances with
        | none => []
        | some tbs => tbs.map (fun tb =>
            { token := tb.token.symbol
              amount := tb.amount
              decimals := tb.token.decimals
              contract_address := tb.token.address })
      (Except.ok
        { address := wallet.address
          blockchain := wallet.blockchain
          balances := balances },
       [ProviderCall.getWallet wallet_id,
        ProviderCall.getWalletTokenBalance wallet_id])

/-- `WalletService.send_transaction` (`src/wallet_service.py` lines
168-227). Validates the blockchain before touching the provider,
fetches the source wallet, then submits a transfer with a fresh
idempotency key and the fixed `"MEDIUM"` fee level; the response
echoes the request's amount, token and destination, carries the
provider's id and state, stamps the local clock, and leaves
`blockchain_tx_hash` as `none`. Any provider failure is logged and
re-raised. -/
def send_transaction (p : Provider) (g : KeyGen) (now : Nat)
    (request : SendTransactionRequest) :
    Except ServiceError TransactionResponse × List ProviderCall × KeyGen :=
  if ¬ is_supported_network request.blockchain then
    (Except.error (ServiceError.valueError
      ("Unsupported blockchain: " ++ request.blockchain)), [], g)
  else
    match p.get_wallet request.wallet_id with
    | Except.error e =>
      (Except.error (ServiceError.provider e),
       [ProviderCall.getWallet request.wallet_id], g)
    | Except.ok wallet =>
      let key := g.fresh.1
      let g1 := g.fresh.2
      let tx_request : ProviderTransferRequest :=
        { idempotency_key := key
          wallet_id := request.wallet_id
          blockchain := request.blockchain
          token_id := request.token_symbol
          destination_address := request.to_address
          amounts := [request.amount]
          fee_level := "MEDIUM" }
      match p.create_transfer tx_request with
      | Except.error e =>
        (Except.error (ServiceError.provider e),
         [ProviderCall.getWallet request.wallet_id,
          ProviderCall.createTransfer tx_request], g1)
      | Except.ok transaction =>
        (Except.ok
          { transaction_id := transaction.id
            wallet_id := request.wallet_id
            status := transaction.state
            blockchain_tx_hash := none
            from_address := wallet.address
            to_address := request.to_address
            amount := request.amount
            token_symbol := request.token_symbol
            created_at := now },
         [ProviderCall.getWallet request.wallet_id,
          ProviderCall.createTransfer tx_request], g1)

/-- `WalletService.get_transaction_status` (`src/wallet_service.py`
lines 229-252). The whole body is inside `try ... except Exception:
return None`, so every provider failure becomes `none`; on success the
transaction is reshaped, exposing the provider's `tx_hash` when
present. -/
def get_transaction_status (p : Provider) (transaction_id : String) :
    Except ServiceError (Option TransactionStatusDict) × List ProviderCall :=
  match p.get_transaction transaction_id with
  | Except.error _ =>
    (Except.ok none, [ProviderCall.getTransaction transaction_id])
  | Except.ok transaction =>
    (Except.ok (some
      { transaction_id := transaction.id
        state := transaction.state
        blockchain_tx_hash := transaction.tx_hash
        created_at := transaction.create_date
        updated_at := transaction.update_date }),
     [ProviderCall.getTransaction transaction_id])

end WalletService

/-! ## Stub providers and generators for concrete evaluations -/

/-- Wallet set echoed by the succeeding stub provider. -/
def stubWalletSet : ProviderWalletSet := { id := "ws1", name := "user-u1-wallets" }

/-- Wallet echoed by the succeeding stub provider (id "w1", address
"0xabc", on ARC-TESTNET); its provider-side `create_date` (999) differs
from every local clock value used in witnesses. -/
def stubWallet : ProviderWallet :=
  { id := "w1", wallet_set_id := "ws1", address := "0xabc",
    blockchain := "ARC-TESTNET", account_type := "SCA", state := "LIVE",
    create_date := 999 }

/-- Transaction echoed by the succeeding stub provider; it already
carries a chain hash. -/
def stubTx : ProviderTransaction :=
  { id := "tx1", state := "INITIATED", tx_hash := some "0xhash1",
    create_date := 7, update_date := 8 }

/-- A stub provider on which every call succeeds. -/
def pStub : Provider :=
  { create_wallet_set := fun _ => Except.ok stubWalletSet
    create_wallet := fun _ => Except.ok [stubWallet]
    get_wallet := fun _ => Except.ok stubWallet
    get_wallet_token_balance := fun _ => Except.ok none
    create_transfer := fun _ => Except.ok stubTx
    get_transaction := fun _ => Except.ok stubTx }

/-- A stub provider on which every call fails with a transport fault. -/
def pTransport : Provider :=
  { create_wallet_set := fun _ => Except.error ProviderError.transportFault
    create_wallet := fun _ => Except.error ProviderError.transportFault
    get_wallet := fun _ => Except.error ProviderError.transportFault
    get_wallet_token_balance := fun _ => Except.error ProviderError.transportFault
    create_transfer := fun _ => Except.error ProviderError.transportFault
    get_transaction := fun _ => Except.error ProviderError.transportFault }

/-- A stub provider on which every lookup fails with "no such
wallet/transaction". -/
def pNotFound : Provider :=
  { create_wallet_set := fun _ => Except.error ProviderError.notFound
    create_wallet := fun _ => Except.error ProviderError.notFound
    get_wallet := fun _ => Except.error ProviderError.notFound
    get_wallet_token_balance := fun _ => Except.error ProviderError.notFound
    create_transfer := fun _ => Except.error ProviderError.notFound
    get_transaction := fun _ => Except.error ProviderError.notFound }

/-- A concrete key generator whose stream never repeats (the n-th key
is the string of n copies of the letter k). -/
def gen0 : KeyGen := { stream := fun n => String.mk (List.replicate n 'k'), idx := 0 }

/-- The stream of `gen0` is injective: distinct draws give distinct
keys, as `uuid4` is assumed to. -/
theorem gen0_stream_injective : Function.Injective gen0.stream := by
  intro a b h
  have hdata : List.replicate a 'k' = List.replicate b 'k' := congrArg String.data h
  simpa using congrArg List.length hdata

/-! ## Registry theorems -/

/-- Every entry of the `NETWORKS` table stores its own key in its
`chain_id` field. -/
theorem networks_chain_id_eq_key :
    ∀ pr ∈ NETWORKS, (Prod.snd pr).chain_id = pr.1 := by decide

/-- Association-list lookup returns an entry whose `chain_id` is the
queried key, provided the table stores keys in `chain_id` fields. -/
theorem dictLookup_chain_id (cid : String) :
    ∀ (l : List (String × NetworkConfig)),
      (∀ pr ∈ l, (Prod.snd pr).chain_id = pr.1) →
      ∀ n, dictLookup cid l = some n → n.chain_id = cid := by
  intro l
  induction l with
  | nil => intro _ n h; exact absurd h (by simp [dictLookup])
  | cons hd tl ih =>
    intro hall n h
    rw [dictLookup] at h
    by_cases hk : hd.1 = cid
    · simp only [hk, if_pos rfl] at h
      cases h
      rw [← hk]
      exact hall hd (List.mem_cons_self hd tl)
    · rw [if_neg hk] at h
      exact ih (fun pr hpr => hall pr (List.mem_cons_of_mem hd hpr)) n h

/-- C3: for every key of the `NETWORKS` table, `get_network` succeeds
and the returned record's `chain_id` equals the queried key; for every
chain identifier absent from the table, `get_network` fails with the
`ValueError` "Unsupported network: …". -/
theorem get_network_spec (cid : String) :
    (∀ n, dictLookup cid NETWORKS = some n →
      get_network cid = Except.ok n ∧ n.chain_id = cid) ∧
    (dictLookup cid NETWORKS = none →
      get_network cid = Except.error ("Unsupported network: " ++ cid)) := by
  constructor
  · intro n h
    refine ⟨?_, dictLookup_chain_id cid NETWORKS networks_chain_id_eq_key n h⟩
    rw [get_network, h]
  · intro h
    rw [get_network, h]

/-- C3 witness: `get_network` at the known key "ETH-MAINNET" returns
the Ethereum Mainnet record (whose `chain_id` is the key), and at the
unknown key "DOGE-NET" fails with the `ValueError`. -/
theorem get_network_spec_witness :
    (get_network "ETH-MAINNET" =
      Except.ok { chain_id := "ETH-MAINNET", name := "Ethereum Mainnet",
                  is_testnet := false, native_currency := "ETH",
                  explorer_url := "https://etherscan.io" } ∧
      ({ chain_id := "ETH-MAINNET", name := "Ethereum Mainnet",
         is_testnet := false, native_currency := "ETH",
         explorer_url := "https://etherscan.io" } : NetworkConfig).chain_id =
        "ETH-MAINNET") ∧
    get_network "DOGE-NET" = Except.error ("Unsupported network: " ++ "DOGE-NET") :=
  ⟨(get_network_spec "ETH-MAINNET").1 _ (by decide),
   (get_network_spec "DOGE-NET").2 (by decide)⟩

/-- C4: `list_networks` with the testnet filter returns exactly the
registry entries whose testnet flag is set, with the mainnet filter
exactly those whose flag is unset; the two results are disjoint and
together cover the full registry. -/
theorem list_networks_partition (pr : String × NetworkConfig) :
    (pr ∈ list_networks true false ↔ pr ∈ NETWORKS ∧ pr.2.is_testnet = true) ∧
    (pr ∈ list_networks false true ↔ pr ∈ NETWORKS ∧ pr.2.is_testnet = false) ∧
    ¬ (pr ∈ list_networks true false ∧ pr ∈ list_networks false true) ∧
    (pr ∈ NETWORKS ↔
      pr ∈ list_networks true false ∨ pr ∈ list_networks false true) := by
  have ht : pr ∈ list_networks true false ↔ pr ∈ NETWORKS ∧ pr.2.is_testnet = true := by
    simp [list_networks, List.mem_filter]
  have hm : pr ∈ list_networks false true ↔ pr ∈ NETWORKS ∧ pr.2.is_testnet = false := by
    simp [list_networks, List.mem_filter, Bool.not_eq_true']
  refine ⟨ht, hm, ?_, ?_⟩
  · rintro ⟨h1, h2⟩
    have e1 := (ht.mp h1).2
    have e2 := (hm.mp h2).2
    rw [e1] at e2
    cases e2
  · constructor
    · intro h
      cases hb : pr.2.is_testnet
      · exact Or.inr (hm.mpr ⟨h, hb⟩)
      · exact Or.inl (ht.mpr ⟨h, hb⟩)
    · rintro (h | h)
      · exact (ht.mp h).1
      · exact (hm.mp h).1

/-- C4 witness: at the concrete entry for "ARC-TESTNET" (testnet flag
set), the partition statement instantiates to: the entry is in the
testnet listing and not in the mainnet listing. -/
theorem list_networks_partition_witness :
    ("ARC-TESTNET",
      ({ chain_id := "ARC-TESTNET", name := "Arc Testnet", is_testnet := true,
         native_currency := "ARC",
         explorer_url := "https://testnet.arcscan.com" } : NetworkConfig)) ∈
      list_networks true false ∧
    ¬ (("ARC-TESTNET",
      ({ chain_id := "ARC-TESTNET", name := "Arc Testnet", is_testnet := true,
         native_currency := "ARC",
         explorer_url := "https://testnet.arcscan.com" } : NetworkConfig)) ∈
      list_networks false true ) := by
  refine ⟨(list_networks_partition _).1.mpr ⟨by decide, by decide⟩, fun hmem => ?_⟩
  exact (list_networks_partition _).2.2.1
    ⟨(list_networks_partition _).1.mpr ⟨by decide, by decide⟩, hmem⟩

/-! ## Facade theorems -/

/-- C1 counterexample: a provider failure that is not a "no such
wallet" lookup — a transport fault — is caught and suppressed by
`get_wallet`, which returns the absence result `none` instead of
propagating the error, contradicting the claim that only not-found
failures are translated into absence. -/
theorem get_wallet_suppresses_transport_fault :
    pTransport.get_wallet "w1" = Except.error ProviderError.transportFault ∧
    ProviderError.transportFault ≠ ProviderError.notFound ∧
    (WalletService.get_wallet pTransport "w1").1 = Except.ok none ∧
    ¬ (WalletService.get_wallet pTransport "w1").1 =
        Except.error (ServiceError.provider ProviderError.transportFault) := by
  refine ⟨rfl, by decide, rfl, fun h => ?_⟩
  rw [show (WalletService.get_wallet pTransport "w1").1 =
    (Except.ok none : Except ServiceError (Option WalletDict)) from rfl] at h
  cases h

/-- C1 amended: `get_wallet` and `get_transaction_status` catch and
suppress every provider failure — not only "no such
wallet/transaction" — translating all of them into the absence result
`none`; the remaining fallible read, `get_balance`, propagates every
provider failure unchanged to the caller. -/
theorem facade_read_error_policy (p : Provider) (wid tid : String)
    (e : ProviderError) (w : ProviderWallet) :
    (p.get_wallet wid = Except.error e →
      (WalletService.get_wallet p wid).1 = Except.ok none) ∧
    (p.get_transaction tid = Except.error e →
      (WalletService.get_transaction_status p tid).1 = Except.ok none) ∧
    (p.get_wallet wid = Except.error e →
      (WalletService.get_balance p wid).1 =
        Except.error (ServiceError.provider e)) ∧
    (p.get_wallet wid = Except.ok w →
      p.get_wallet_token_balance wid = Except.error e →
      (WalletService.get_balance p wid).1 =
        Except.error (ServiceError.provider e)) := by
  refine ⟨fun h => ?_, fun h => ?_, fun h => ?_, fun h1 h2 => ?_⟩
  · rw [WalletService.get_wallet, h]
  · rw [WalletService.get_transaction_status, h]
  · rw [WalletService.get_balance, h]
  · rw [WalletService.get_balance, h1, h2]

/-- C1 amended, witness: on the transport-faulting stub provider both
lookups return `none` and `get_balance` propagates the fault; the
balance-call conjunct is exercised on the succeeding stub wallet. -/
theorem facade_read_error_policy_witness :
    (WalletService.get_wallet pTransport "w1").1 = Except.ok none ∧
    (WalletService.get_transaction_status pTransport "t1").1 = Except.ok none ∧
    (WalletService.get_balance pTransport "w1").1 =
      Except.error (ServiceError.provider ProviderError.transportFault) :=
  ⟨(facade_read_error_policy pTransport "w1" "t1" ProviderError.transportFault
      stubWallet).1 rfl,
   (facade_read_error_policy pTransport "w1" "t1" ProviderError.transportFault
      stubWallet).2.1 rfl,
   (facade_read_error_policy pTransport "w1" "t1" ProviderError.transportFault
      stubWallet).2.2.1 rfl⟩

/-- C2: on a chain identifier absent from the registry, `create_wallet`
and `send_transaction` fail with the unsupported-network `ValueError`
and issue no provider call at all (empty call log, key generator
untouched). -/
theorem unsupported_network_no_provider_call (p : Provider) (g : KeyGen)
    (now : Nat) (reqC : CreateWalletRequestModel) (reqS : SendTransactionRequest)
    (hC : is_supported_network reqC.blockchain = false)
    (hS : is_supported_network reqS.blockchain = false) :
    WalletService.create_wallet p g now reqC =
      (Except.error (ServiceError.valueError
        ("Unsupported blockchain: " ++ reqC.blockchain)), [], g) ∧
    WalletService.send_transaction p g now reqS =
      (Except.error (ServiceError.valueError
        ("Unsupported blockchain: " ++ reqS.blockchain)), [], g) := by
  constructor
  · rw [WalletService.create_wallet, if_pos (by rw [hC]; exact Bool.false_ne_true)]
  · rw [WalletService.send_transaction, if_pos (by rw [hS]; exact Bool.false_ne_true)]

/-- C2 witness: at the unsupported chain "DOGE-NET", both operations on
the succeeding stub provider fail with the `ValueError` and an empty
call log. -/
theorem unsupported_network_no_provider_call_witness :
    is_supported_network "DOGE-NET" = false ∧
    WalletService.create_wallet pStub gen0 5
        { user_id := "u1", blockchain := "DOGE-NET", account_type := "SCA",
          wallet_set_name := none } =
      (Except.error (ServiceError.valueError
        ("Unsupported blockchain: " ++ "DOGE-NET")), [], gen0) ∧
    WalletService.send_transaction pStub gen0 5
        { wallet_id := "w1", to_address := "0xdef", token_symbol := "USDC",
          amount := "10.50", blockchain := "DOGE-NET" } =
      (Except.error (ServiceError.valueError
        ("Unsupported blockchain: " ++ "DOGE-NET")), [], gen0) :=
  ⟨by decide,
   (unsupported_network_no_provider_call pStub gen0 5
      { user_id := "u1", blockchain := "DOGE-NET", account_type := "SCA",
        wallet_set_name := none }
      { wallet_id := "w1", to_address := "0xdef", token_symbol := "USDC",
        amount := "10.50", blockchain := "DOGE-NET" }
      (by decide) (by decide)).1,
   (unsupported_network_no_provider_call pStub gen0 5
      { user_id := "u1", blockchain := "DOGE-NET", account_type := "SCA",
        wallet_set_name := none }
      { wallet_id := "w1", to_address := "0xdef", token_symbol := "USDC",
        amount := "10.50", blockchain := "DOGE-NET" }
      (by decide) (by decide)).2⟩

/-- C5: when the wallet lookup succeeds and the provider reports no
token balances (no `token_balances` data on the balance response),
`get_balance` returns a successful response with an empty balances
list; when either provider call fails, `get_balance` propagates the
provider's error. -/
theorem get_balance_spec (p : Provider) (wid : String) (w : ProviderWallet)
    (e : ProviderError) :
    (p.get_wallet wid = Except.ok w →
      p.get_wallet_token_balance wid = Except.ok none →
      (WalletService.get_balance p wid).1 =
        Except.ok { address := w.address, blockchain := w.blockchain,
                    balances := [] }) ∧
    (p.get_wallet wid = Except.error e →
      (WalletService.get_balance p wid).1 =
        Except.error (ServiceError.provider e)) ∧
    (p.get_wallet wid = Except.ok w →
      p.get_wallet_token_balance wid = Except.error e →
      (WalletService.get_balance p wid).1 =
        Except.error (ServiceError.provider e)) := by
  refine ⟨fun h1 h2 => ?_, fun h => ?_, fun h1 h2 => ?_⟩
  · rw [WalletService.get_balance, h1, h2]
  · rw [WalletService.get_balance, h]
  · rw [WalletService.get_balance, h1, h2]

/-- C5 witness: `get_balance "w1"` on the stub provider that returns a
wallet but no token-balance data yields `balances = []` (not an
error); on the transport-faulting stub it propagates the fault. -/
theorem get_balance_spec_witness :
    (WalletService.get_balance pStub "w1").1 =
      Except.ok { address := "0xabc", blockchain := "ARC-TESTNET",
                  balances := [] } ∧
    (WalletService.get_balance pTransport "w1").1 =
      Except.error (ServiceError.provider ProviderError.transportFault) :=
  ⟨(get_balance_spec pStub "w1" stubWallet ProviderError.transportFault).1
      rfl rfl,
   (get_balance_spec pTransport "w1" stubWallet ProviderError.transportFault).2.1
      rfl⟩

/-- C6: on a nonexistent wallet id (provider lookup fails with "no such
wallet"), `get_wallet` returns the absence result `none`; on a
nonexistent transaction id, `get_transaction_status` does likewise;
and neither operation can raise at all — on every provider whatsoever
each returns `Except.ok` of some option. -/
theorem absent_id_returns_none (p : Provider) (wid tid : String) :
    (p.get_wallet wid = Except.error ProviderError.notFound →
      (WalletService.get_wallet p wid).1 = Except.ok none) ∧
    (∃ o, (WalletService.get_wallet p wid).1 = Except.ok o) ∧
    (p.get_transaction tid = Except.error ProviderError.notFound →
      (WalletService.get_transaction_status p tid).1 = Except.ok none) ∧
    (∃ o, (WalletService.get_transaction_status p tid).1 = Except.ok o) := by
  refine ⟨fun h => by rw [WalletService.get_wallet, h], ?_,
    fun h => by rw [WalletService.get_transaction_status, h], ?_⟩
  · rw [WalletService.get_wallet]
    cases p.get_wallet wid with
    | error e => exact ⟨none, rfl⟩
    | ok w => exact ⟨_, rfl⟩
  · rw [WalletService.get_transaction_status]
    cases p.get_transaction tid with
    | error e => exact ⟨none, rfl⟩
    | ok t => exact ⟨_, rfl⟩

/-- C6 witness: on the stub provider whose lookups all fail with
"not found", `get_wallet "missing"` and `get_transaction_status
"missing"` both return `none` without raising. -/
theorem absent_id_returns_none_witness :
    (WalletService.get_wallet pNotFound "missing").1 = Except.ok none ∧
    (WalletService.get_transaction_status pNotFound "missing").1 =
      Except.ok none :=
  ⟨(absent_id_returns_none pNotFound "missing" "missing").1 rfl,
   (absent_id_returns_none pNotFound "missing" "missing").2.2.1 rfl⟩

/-- C7: with a supported chain and a succeeding provider,
`create_wallet` issues exactly one wallet-set creation followed by one
wallet-creation request asking for exactly one wallet (`count = 1`) of
the requested account type on the requested chain, and the response
carries the new wallet's id, the wallet set's id, the wallet's
address, blockchain and account type, and the locally supplied clock
value as `created_at` — whatever the provider-side `create_date` of
the wallet is. -/
theorem create_wallet_success_spec (p : Provider) (g : KeyGen) (now : Nat)
    (req : CreateWalletRequestModel) (ws : ProviderWalletSet)
    (w : ProviderWallet) (rest : List ProviderWallet)
    (hsup : is_supported_network req.blockchain = true)
    (hws : ∀ s, p.create_wallet_set s = Except.ok ws)
    (hw : ∀ r, p.create_wallet r = Except.ok (w :: rest)) :
    ∃ cwr : ProviderCreateWalletRequest,
      (WalletService.create_wallet p g now req).2.1 =
        [ProviderCall.createWalletSet
          (req.wallet_set_name.getD ("user-" ++ req.user_id ++ "-wallets")),
         ProviderCall.createWallet cwr] ∧
      cwr.count = 1 ∧
      cwr.account_type = req.account_type ∧
      cwr.blockchains = [req.blockchain] ∧
      (WalletService.create_wallet p g now req).1 =
        Except.ok { wallet_id := w.id, wallet_set_id := ws.id,
                    address := w.address, blockchain := w.blockchain,
                    account_type := w.account_type, created_at := now } := by
  have hmain : WalletService.create_wallet p g now req =
      (Except.ok { wallet_id := w.id, wallet_set_id := ws.id,
                   address := w.address, blockchain := w.blockchain,
                   account_type := w.account_type, created_at := now },
       [ProviderCall.createWalletSet
          (req.wallet_set_name.getD ("user-" ++ req.user_id ++ "-wallets")),
        ProviderCall.createWallet
          { idempotency_key := g.stream g.idx, wallet_set_id := ws.id,
            account_type := req.account_type,
            blockchains := [req.blockchain], count := 1 }],
       { g with idx := g.idx + 1 }) := by
    rw [WalletService.create_wallet, if_neg (fun h => h hsup)]
    simp only [hws, hw, KeyGen.fresh]
  exact ⟨{ idempotency_key := g.stream g.idx, wallet_set_id := ws.id,
           account_type := req.account_type,
           blockchains := [req.blockchain], count := 1 },
         by rw [hmain], rfl, rfl, rfl, by rw [hmain]⟩

/-- C7 witness: the end-to-end scenario — `create_wallet` for user
"u1" on "ARC-TESTNET" with account type "SCA" against the echoing stub
provider issues a `count = 1` wallet request and returns wallet id
"w1", wallet-set id "ws1", address "0xabc", blockchain "ARC-TESTNET",
account type "SCA" and the local clock value 5 (not the stub wallet's
own `create_date` 999). -/
theorem create_wallet_success_spec_witness :
    ∃ cwr : ProviderCreateWalletRequest,
      (WalletService.create_wallet pStub gen0 5
        { user_id := "u1", blockchain := "ARC-TESTNET", account_type := "SCA",
          wallet_set_name := none }).2.1 =
        [ProviderCall.createWalletSet "user-u1-wallets",
         ProviderCall.createWallet cwr] ∧
      cwr.count = 1 ∧
      cwr.account_type = "SCA" ∧
      cwr.blockchains = ["ARC-TESTNET"] ∧
      (WalletService.create_wallet pStub gen0 5
        { user_id := "u1", blockchain := "ARC-TESTNET", account_type := "SCA",
          wallet_set_name := none }).1 =
        Except.ok { wallet_id := "w1", wallet_set_id := "ws1",
                    address := "0xabc", blockchain := "ARC-TESTNET",
                    account_type := "SCA", created_at := 5 } :=
  create_wallet_success_spec pStub gen0 5
    { user_id := "u1", blockchain := "ARC-TESTNET", account_type := "SCA",
      wallet_set_name := none }
    stubWalletSet stubWallet [] (by decide) (fun _ => rfl) (fun _ => rfl)

/-- C8: every transfer request `send_transaction` submits to the
provider — on any provider, with any arguments, whether or not the
transfer later succeeds — carries the fixed fee level `"MEDIUM"`; and
on the success path the response carries the provider transaction's id
and initial state while echoing the caller's amount, token symbol and
destination address unchanged. -/
theorem send_transaction_spec (p : Provider) (g : KeyGen) (now : Nat)
    (req : SendTransactionRequest) (w : ProviderWallet)
    (tx : ProviderTransaction) :
    (∀ tq, ProviderCall.createTransfer tq ∈
        (WalletService.send_transaction p g now req).2.1 →
      tq.fee_level = "MEDIUM") ∧
    (is_supported_network req.blockchain = true →
      p.get_wallet req.wallet_id = Except.ok w →
      (∀ r, p.create_transfer r = Except.ok tx) →
      (WalletService.send_transaction p g now req).1 =
        Except.ok { transaction_id := tx.id, wallet_id := req.wallet_id,
                    status := tx.state, blockchain_tx_hash := none,
                    from_address := w.address, to_address := req.to_address,
                    amount := req.amount, token_symbol := req.token_symbol,
                    created_at := now }) := by
  constructor
  · intro tq htq
    rw [WalletService.send_transaction] at htq
    by_cases hs : is_supported_network req.blockchain = true
    · rw [if_neg (fun h => h hs)] at htq
      cases hgw : p.get_wallet req.wallet_id with
      | error e =>
        rw [hgw] at htq
        simp at htq
      | ok w' =>
        rw [hgw] at htq
        simp only [KeyGen.fresh] at htq
        cases hct : p.create_transfer
            { idempotency_key := g.stream g.idx, wallet_id := req.wallet_id,
              blockchain := req.blockchain, token_id := req.token_symbol,
              destination_address := req.to_address,
              amounts := [req.amount], fee_level := "MEDIUM" } with
        | error e =>
          rw [hct] at htq
          simp at htq
          rw [htq]
        | ok t =>
          rw [hct] at htq
          simp at htq
          rw [htq]
    · rw [if_pos (fun h => hs h)] at htq
      simp at htq
  · intro hs hgw hct
    rw [WalletService.send_transaction, if_neg (fun h => h hs)]
    simp only [hgw, hct, KeyGen.fresh]

/-- C8 witness: a concrete send of 10.50 USDC to "0xdef" on
"ARC-TESTNET" through the stub provider submits fee level "MEDIUM"
and returns the stub transaction's id "tx1" and state "INITIATED"
with the amount, token and destination echoed. -/
theorem send_transaction_spec_witness :
    (∀ tq, ProviderCall.createTransfer tq ∈
        (WalletService.send_transaction pStub gen0 5
          { wallet_id := "w1", to_address := "0xdef", token_symbol := "USDC",
            amount := "10.50", blockchain := "ARC-TESTNET" }).2.1 →
      tq.fee_level = "MEDIUM") ∧
    (WalletService.send_transaction pStub gen0 5
      { wallet_id := "w1", to_address := "0xdef", token_symbol := "USDC",
        amount := "10.50", blockchain := "ARC-TESTNET" }).1 =
      Except.ok { transaction_id := "tx1", wallet_id := "w1",
                  status := "INITIATED", blockchain_tx_hash := none,
                  from_address := "0xabc", to_address := "0xdef",
                  amount := "10.50", token_symbol := "USDC",
                  created_at := 5 } :=
  ⟨(send_transaction_spec pStub gen0 5
      { wallet_id := "w1", to_address := "0xdef", token_symbol := "USDC",
        amount := "10.50", blockchain := "ARC-TESTNET" }
      stubWallet stubTx).1,
   (send_transaction_spec pStub gen0 5
      { wallet_id := "w1", to_address := "0xdef", token_symbol := "USDC",
        amount := "10.50", blockchain := "ARC-TESTNET" }
      stubWallet stubTx).2 (by decide) rfl (fun _ => rfl)⟩

/-- Helper: whenever `send_transaction` issues a transfer call, that
call's idempotency key is the generator's next draw, and the returned
generator keeps the same stream with the index advanced by one. -/
theorem send_transfer_call_key (p : Provider) (g : KeyGen) (now : Nat)
    (req : SendTransactionRequest) (tq : ProviderTransferRequest)
    (h : ProviderCall.createTransfer tq ∈
      (WalletService.send_transaction p g now req).2.1) :
    tq.idempotency_key = g.stream g.idx ∧
    (WalletService.send_transaction p g now req).2.2.stream = g.stream ∧
    (WalletService.send_transaction p g now req).2.2.idx = g.idx + 1 := by
  rw [WalletService.send_transaction] at h ⊢
  by_cases hs : is_supported_network req.blockchain = true
  · rw [if_neg (fun hh => hh hs)] at h ⊢
    cases hgw : p.get_wallet req.wallet_id with
    | error e =>
      rw [hgw] at h
      simp at h
    | ok w' =>
      rw [hgw] at h
      simp only [KeyGen.fresh] at h ⊢
      cases hct : p.create_transfer
          { idempotency_key := g.stream g.idx, wallet_id := req.wallet_id,
            blockchain := req.blockchain, token_id := req.token_symbol,
            destination_address := req.to_address,
            amounts := [req.amount], fee_level := "MEDIUM" } with
      | error e =>
        rw [hct] at h
        simp at h
        rw [h]
        exact ⟨rfl, rfl, rfl⟩
      | ok t =>
        rw [hct] at h
        simp at h
        rw [h]
        exact ⟨rfl, rfl, rfl⟩
  · rw [if_pos (fun hh => hs hh)] at h
    simp at h

/-- C9: two sequential `send_transaction` calls with identical
arguments — the second running on the generator state returned by the
first — submit transfers with distinct idempotency keys, provided the
underlying key stream (modelling `uuid4`) never repeats; the facade
deduplicates nothing. -/
theorem idempotency_keys_distinct (p : Provider) (g : KeyGen)
    (now1 now2 : Nat) (req : SendTransactionRequest)
    (tq1 tq2 : ProviderTransferRequest)
    (hinj : Function.Injective g.stream)
    (h1 : ProviderCall.createTransfer tq1 ∈
      (WalletService.send_transaction p g now1 req).2.1)
    (h2 : ProviderCall.createTransfer tq2 ∈
      (WalletService.send_transaction p
        (WalletService.send_transaction p g now1 req).2.2 now2 req).2.1) :
    tq1.idempotency_key ≠ tq2.idempotency_key := by
  obtain ⟨hk1, hstream, hidx⟩ := send_transfer_call_key p g now1 req tq1 h1
  obtain ⟨hk2, -, -⟩ :=
    send_transfer_call_key p (WalletService.send_transaction p g now1 req).2.2
      now2 req tq2 h2
  rw [hk1, hk2, hstream, hidx]
  intro hcontra
  exact Nat.succ_ne_self g.idx (hinj hcontra).symm

/-- C9 witness: two sequential sends of the same request through the
stub provider, starting from the never-repeating generator `gen0`,
submit transfers whose idempotency keys (the 0th and 1st draws) are
distinct. -/
theorem idempotency_keys_distinct_witness :
    ({ idempotency_key := "", wallet_id := "w1",
       blockchain := "ARC-TESTNET", token_id := "USDC",
       destination_address := "0xdef", amounts := ["10.50"],
       fee_level := "MEDIUM" } : ProviderTransferRequest).idempotency_key ≠
    ({ idempotency_key := "k", wallet_id := "w1",
       blockchain := "ARC-TESTNET", token_id := "USDC",
       destination_address := "0xdef", amounts := ["10.50"],
       fee_level := "MEDIUM" } : ProviderTransferRequest).idempotency_key :=
  idempotency_keys_distinct pStub gen0 5 6
    { wallet_id := "w1", to_address := "0xdef", token_symbol := "USDC",
      amount := "10.50", blockchain := "ARC-TESTNET" }
    { idempotency_key := "", wallet_id := "w1",
      blockchain := "ARC-TESTNET", token_id := "USDC",
      destination_address := "0xdef", amounts := ["10.50"],
      fee_level := "MEDIUM" }
    { idempotency_key := "k", wallet_id := "w1",
      blockchain := "ARC-TESTNET", token_id := "USDC",
      destination_address := "0xdef", amounts := ["10.50"],
      fee_level := "MEDIUM" }
    gen0_stream_injective (by decide) (by decide)

/-- C10: every successful `send_transaction` response has
`blockchain_tx_hash = none`, whatever transaction hash the provider's
own response carries; the hash becomes observable only through
`get_transaction_status`, which exposes the provider transaction's
`tx_hash` field. -/
theorem send_transaction_tx_hash_deferred (p : Provider) (g : KeyGen)
    (now : Nat) (req : SendTransactionRequest) (resp : TransactionResponse)
    (tid : String) (t : ProviderTransaction) :
    ((WalletService.send_transaction p g now req).1 = Except.ok resp →
      resp.blockchain_tx_hash = none) ∧
    (p.get_transaction tid = Except.ok t →
      (WalletService.get_transaction_status p tid).1 =
        Except.ok (some { transaction_id := t.id, state := t.state,
                          blockchain_tx_hash := t.tx_hash,
                          created_at := t.create_date,
                          updated_at := t.update_date })) := by
  constructor
  · intro h
    rw [WalletService.send_transaction] at h
    by_cases hs : is_supported_network req.blockchain = true
    · rw [if_neg (fun hh => hh hs)] at h
      cases hgw : p.get_wallet req.wallet_id with
      | error e =>
        rw [hgw] at h
        simp at h
      | ok w' =>
        rw [hgw] at h
        simp only [KeyGen.fresh] at h
        cases hct : p.create_transfer
            { idempotency_key := g.stream g.idx, wallet_id := req.wallet_id,
              blockchain := req.blockchain, token_id := req.token_symbol,
              destination_address := req.to_address,
              amounts := [req.amount], fee_level := "MEDIUM" } with
        | error e =>
          rw [hct] at h
          simp at h
        | ok t' =>
          rw [hct] at h
          simp at h
          rw [← h]
    · rw [if_pos (fun hh => hs hh)] at h
      simp at h
  · intro h
    rw [WalletService.get_transaction_status, h]

/-- C10 witness: the stub provider's transaction already carries the
hash "0xhash1", yet the `send_transaction` response has
`blockchain_tx_hash = none`; querying `get_transaction_status` then
exposes that hash. -/
theorem send_transaction_tx_hash_deferred_witness :
    ({ transaction_id := "tx1", wallet_id := "w1", status := "INITIATED",
       blockchain_tx_hash := none, from_address := "0xabc",
       to_address := "0xdef", amount := "10.50", token_symbol := "USDC",
       created_at := 5 } : TransactionResponse).blockchain_tx_hash = none ∧
    stubTx.tx_hash = some "0xhash1" ∧
    (WalletService.get_transaction_status pStub "tx1").1 =
      Except.ok (some { transaction_id := "tx1", state := "INITIATED",
                        blockchain_tx_hash := some "0xhash1",
                        created_at := 7, updated_at := 8 }) :=
  ⟨(send_transaction_tx_hash_deferred pStub gen0 5
      { wallet_id := "w1", to_address := "0xdef", token_symbol := "USDC",
        amount := "10.50", blockchain := "ARC-TESTNET" }
      { transaction_id := "tx1", wallet_id := "w1", status := "INITIATED",
        blockchain_tx_hash := none, from_address := "0xabc",
        to_address := "0xdef", amount := "10.50", token_symbol := "USDC",
        created_at := 5 }
      "tx1" stubTx).1 rfl,
   rfl,
   (send_transaction_tx_hash_deferred pStub gen0 5
      { wallet_id := "w1", to_address := "0xdef", token_symbol := "USDC",
        amount := "10.50", blockchain := "ARC-TESTNET" }
      { transaction_id := "tx1", wallet_id := "w1", status := "INITIATED",
        blockchain_tx_hash := none, from_address := "0xabc",
        to_address := "0xdef", amount := "10.50", token_symbol := "USDC",
        created_at := 5 }
      "tx1" stubTx).2 rfl⟩
